import Mathlib

/-!
Shallow embedding of the `groq-subtitles` repository (package `subtitles`:
`config.py`, `transcriber.py`, `processor.py`) and proofs about it.

Conventions of the embedding:
* Python `float` values that the code manipulates (segment times, temperature)
  are embedded as exact rationals `ℚ`; `int(x)` is truncation toward zero
  (`pyint`), `x // y` is floor division and `x % y` is Python's modulo
  (result has the sign of the divisor), as in CPython.
* Filesystem paths are strings; a Python `set` of paths is a duplicate-free
  `List String` (insertion order; membership is what matters).
* Python `dict`s returned by `transcribe_audio` are embedded as a structure
  with optional fields: an absent key is `none`; reading an absent key raises
  `KeyError`, embedded as `Except.error`.
* I/O effects (HTTP response, ffmpeg, file writes) are passed in explicitly
  as values/oracles; raising an exception is `Except.error`.
-/

/-- Enumeration `WhisperModel` from `config.py` (a Python `str` enum). -/
inductive WhisperModel
  | LARGE_V3
  | LARGE_V3_TURBO
  | DISTIL_ENGLISH
  deriving DecidableEq, Repr

/-- String value of each `WhisperModel` member, as in `config.py` lines 10-12. -/
def WhisperModel.value : WhisperModel → String
  | .LARGE_V3 => "whisper-large-v3"
  | .LARGE_V3_TURBO => "whisper-large-v3-turbo"
  | .DISTIL_ENGLISH => "distil-whisper-large-v3-en"

/-- Enumeration `ResponseFormat` from `config.py` (a Python `str` enum). -/
inductive ResponseFormat
  | JSON
  | VERBOSE_JSON
  | TEXT
  deriving DecidableEq, Repr

/-- String value of each `ResponseFormat` member, as in `config.py` lines 16-18. -/
def ResponseFormat.value : ResponseFormat → String
  | .JSON => "json"
  | .VERBOSE_JSON => "verbose_json"
  | .TEXT => "text"

/-- The `Config` dataclass from `config.py` lines 21-32, with its field defaults. -/
structure Config where
  groq_api_key : String
  model : WhisperModel := .LARGE_V3_TURBO
  output_format : String := "srt"
  response_format : ResponseFormat := .VERBOSE_JSON
  num_workers : Nat := 4
  temperature : Option ℚ := some 0
  language : Option String := none
  recursive : Bool := false
  log_file : String := "subtitle_generation.log"
  prompt : Option String := none
  deriving DecidableEq, Repr

/-- Python `bool(s)` on a string: false exactly for the empty string. -/
def pybool (s : String) : Bool := s != ""

/-- Python `str.lower()`, embedded as character-wise lower-casing (the
suffixes the code compares are ASCII). -/
def pylower (s : String) : String := String.mk (s.data.map Char.toLower)

/-- The `recursive` field computed by `Config.from_env` (`config.py` line 47):
`bool(os.getenv("RECURSIVE", "False"))`. The argument is the value of the
environment variable `RECURSIVE` (`none` when unset); `os.getenv` substitutes
the default string `"False"` when the variable is unset. -/
def Config.from_env_recursive (recursive_var : Option String) : Bool :=
  pybool (recursive_var.getD "False")

/-- State of a `WhisperTranscriber` after `__init__` (`transcriber.py` lines
35-50): the constructor stores its arguments unchanged. Python is dynamically
typed, so the `model` slot holds whatever the second positional argument was;
in intended use that is a `WhisperModel` (embedded by its string `value`), but
a caller may pass any string or `None`, hence `Option String`. -/
structure WhisperTranscriber where
  api_key : String
  model : Option String := some WhisperModel.LARGE_V3_TURBO.value
  language : Option String := none
  response_format : ResponseFormat := .VERBOSE_JSON
  temperature : Option ℚ := none
  prompt : Option String := none
  deriving DecidableEq, Repr

/-- The transcriber that `VideoProcessor.__init__` constructs (`processor.py`
line 24): the Python call is
`WhisperTranscriber(config.groq_api_key, config.language)`, so
`config.groq_api_key` binds to `api_key`, `config.language` binds to the
second positional parameter `model`, and every remaining parameter takes its
default (`language=None`, `response_format=VERBOSE_JSON`, `temperature=None`,
`prompt=None`). -/
def VideoProcessor.mkTranscriber (config : Config) : WhisperTranscriber :=
  { api_key := config.groq_api_key
    model := config.language
    language := none
    response_format := .VERBOSE_JSON
    temperature := none
    prompt := none }

/-- Python `int(x)` on a float/rational: truncation toward zero. -/
def pyint (q : ℚ) : ℤ := if 0 ≤ q then ⌊q⌋ else ⌈q⌉

/-- Python float floor division `a // b` (for `b ≠ 0`): `floor(a / b)`,
returned as a (rational-valued) number as in CPython. -/
def pyfloordiv (a b : ℚ) : ℚ := ⌊a / b⌋

/-- Python float modulo `a % b` (for `b ≠ 0`): `a - b * floor(a / b)`,
whose sign follows the divisor. -/
def pymod (a b : ℚ) : ℚ := a - b * ⌊a / b⌋

/-- Python `f"{n:0wd}"` for a nonnegative integer: decimal digits left-padded
with zeros to width `w`. (For a negative `n` CPython puts the sign inside the
width; the code only formats nonnegative components, and here the sign is
simply prepended.) -/
def zpad (w : Nat) (n : ℤ) : String :=
  let s := toString n.natAbs
  let s := if s.length < w then String.mk (List.replicate (w - s.length) '0') ++ s else s
  if n < 0 then "-" ++ s else s

/-- `WhisperTranscriber._format_timestamp` (`transcriber.py` lines 134-143):
`hours = int(seconds // 3600)`, `minutes = int((seconds % 3600) // 60)`,
`secs = int(seconds % 60)`, `msecs = int((seconds - int(seconds)) * 1000)`,
rendered `hh:mm:ss.mmm` (VTT) or `hh:mm:ss,mmm` (SRT). -/
def format_timestamp (seconds : ℚ) (vtt : Bool) : String :=
  let hours : ℤ := pyint (pyfloordiv seconds 3600)
  let minutes : ℤ := pyint (pyfloordiv (pymod seconds 3600) 60)
  let secs : ℤ := pyint (pymod seconds 60)
  let msecs : ℤ := pyint ((seconds - (pyint seconds : ℚ)) * 1000)
  if vtt then
    zpad 2 hours ++ ":" ++ zpad 2 minutes ++ ":" ++ zpad 2 secs ++ "." ++ zpad 3 msecs
  else
    zpad 2 hours ++ ":" ++ zpad 2 minutes ++ ":" ++ zpad 2 secs ++ "," ++ zpad 3 msecs

/-- One segment of a transcription: the JSON objects
`\x7b"start": float, "end": float, "text": str\x7d` that the API returns and
`_save_srt`/`_save_vtt`/`_save_txt` consume. The Python key `end` is a Lean
keyword and is embedded as the field `stop`. -/
structure Segment where
  start : ℚ
  stop : ℚ
  text : String
  deriving DecidableEq, Repr

/-- The Python dict returned by `WhisperTranscriber.transcribe_audio`:
either `\x7b"text": str\x7d` (plain-text path, `transcriber.py` line 99) or the
parsed JSON body (which carries a `segments` array when the service returns
one). An absent dict key is `none`. -/
structure Transcription where
  text : Option String := none
  segments : Option (List Segment) := none
  deriving DecidableEq, Repr

/-- Reading `transcription["segments"]`: raises `KeyError` when the key is
absent, as in `_save_srt`/`_save_vtt`/`_save_txt`. -/
def Transcription.getSegments (t : Transcription) : Except String (List Segment) :=
  match t.segments with
  | some segs => .ok segs
  | none => .error "KeyError: segments"

/-- One SRT block written by the loop body of `_save_srt` (`transcriber.py`
line 119). -/
def srt_block (i : Nat) (seg : Segment) : String :=
  toString i ++ "\n" ++ format_timestamp seg.start false ++ " --> " ++
    format_timestamp seg.stop false ++ "\n" ++ seg.text ++ "\n\n"

/-- The `for i, segment in enumerate(transcription["segments"], 1)` loop of
`_save_srt`, accumulating the text written to the file; `i` is the running
1-based index. -/
def format_srt_from (i : Nat) : List Segment → String
  | [] => ""
  | seg :: rest => srt_block i seg ++ format_srt_from (i + 1) rest

/-- Full text written by `_save_srt` (`transcriber.py` lines 114-119):
`enumerate(..., 1)` starts the index at 1. -/
def format_srt (segs : List Segment) : String := format_srt_from 1 segs

/-- One VTT block written by the loop body of `_save_vtt`. -/
def vtt_block (seg : Segment) : String :=
  format_timestamp seg.start true ++ " --> " ++ format_timestamp seg.stop true ++
    "\n" ++ seg.text ++ "\n\n"

/-- The segment loop of `_save_vtt`. -/
def format_vtt_body : List Segment → String
  | [] => ""
  | seg :: rest => vtt_block seg ++ format_vtt_body rest

/-- The segment loop of `_save_txt`: each segment's text on its own line. -/
def format_txt : List Segment → String
  | [] => ""
  | seg :: rest => seg.text ++ "\n" ++ format_txt rest

/-- `WhisperTranscriber._save_srt` as the content it writes (or the exception
it raises). -/
def save_srt (t : Transcription) : Except String String :=
  t.getSegments.map format_srt

/-- `WhisperTranscriber._save_vtt` as the content it writes: header `WEBVTT`,
blank line, then the blocks. -/
def save_vtt (t : Transcription) : Except String String :=
  t.getSegments.map (fun segs => "WEBVTT\n\n" ++ format_vtt_body segs)

/-- `WhisperTranscriber._save_txt` as the content it writes. -/
def save_txt (t : Transcription) : Except String String :=
  t.getSegments.map format_txt

/-- `WhisperTranscriber.save_subtitles` (`transcriber.py` lines 102-112):
dispatch on the `format` string, `ValueError` on anything but
`srt`/`vtt`/`txt`. The result is the written file content. -/
def save_subtitles (t : Transcription) (format : String) : Except String String :=
  if format = "srt" then save_srt t
  else if format = "vtt" then save_vtt t
  else if format = "txt" then save_txt t
  else .error ("Unsupported subtitle format: " ++ format)

/-- `WhisperTranscriber.SUPPORTED_AUDIO_FORMATS` (`transcriber.py` lines
24-32). -/
def SUPPORTED_AUDIO_FORMATS : List String :=
  [".mp3", ".mp4", ".mpeg", ".mpga", ".m4a", ".wav", ".webm"]

/-- `WhisperTranscriber.MAX_FILE_SIZE` (`transcriber.py` line 33). -/
def MAX_FILE_SIZE : Nat := 25 * 1024 * 1024

/-- What `transcribe_audio` observes of the audio file before the request:
its `pathlib` suffix (final extension with the leading dot) and
`stat().st_size` in bytes. -/
structure AudioFile where
  suffix : String
  st_size : Nat
  deriving DecidableEq, Repr

/-- Exceptions `transcribe_audio` can raise: the two `ValueError`s of the
pre-network validation (`transcriber.py` lines 55-64) and the non-200
`Exception` (lines 92-96). -/
inductive TranscribeError
  | fileTooLarge (size : Nat)
  | unsupportedFormat (suffix : String)
  | transcriptionFailed (status : Nat) (body : String)
  deriving DecidableEq, Repr

/-- The validations `transcribe_audio` performs before opening the HTTP
session, in source order: size first (`> MAX_FILE_SIZE` raises), then the
case-insensitive suffix check against `SUPPORTED_AUDIO_FORMATS`. -/
def validate_audio (f : AudioFile) : Option TranscribeError :=
  if f.st_size > MAX_FILE_SIZE then some (.fileTooLarge f.st_size)
  else if pylower f.suffix ∈ SUPPORTED_AUDIO_FORMATS then none
  else some (.unsupportedFormat f.suffix)

/-- The HTTP response of the transcription endpoint, as `transcribe_audio`
consumes it: status code, body text (`response.text()`), and the parsed JSON
body (`response.json()`) for the non-text path. -/
structure HttpResponse where
  status : Nat
  body : String
  json : Transcription
  deriving DecidableEq, Repr

/-- Response handling of `transcribe_audio` (`transcriber.py` lines 92-100):
raise on status ≠ 200; on 200 return `\x7b"text": body\x7d` when the
configured response format is `TEXT`, else the parsed JSON body. -/
def handle_response (rf : ResponseFormat) (resp : HttpResponse) : Except TranscribeError Transcription :=
  if resp.status ≠ 200 then .error (.transcriptionFailed resp.status resp.body)
  else if rf = .TEXT then .ok { text := some resp.body, segments := none }
  else .ok resp.json

/-- `WhisperTranscriber.transcribe_audio` (`transcriber.py` lines 52-100):
pre-network validation, then the network exchange (whose response is passed
in explicitly — a validation failure returns before `resp` is consulted). -/
def transcribe_audio (t : WhisperTranscriber) (f : AudioFile) (resp : HttpResponse) :
    Except TranscribeError Transcription :=
  match validate_audio f with
  | some e => .error e
  | none => handle_response t.response_format resp

/-- The multipart form fields `transcribe_audio` attaches (`transcriber.py`
lines 79-87), besides the file itself: `model` and `response_format` always,
`language` only when truthy and the stored model value is not the
English-only `distil-whisper-large-v3-en` (a Python `str` enum compares equal
to its value), `temperature` only when not `None`, `prompt` only when
truthy. -/
structure WhisperFormData where
  model : Option String
  response_format : String
  language : Option String
  temperature : Option ℚ
  prompt : Option String
  deriving DecidableEq, Repr

/-- Form construction of `transcribe_audio` (`transcriber.py` lines 79-87). -/
def build_form_data (t : WhisperTranscriber) : WhisperFormData :=
  { model := t.model
    response_format := t.response_format.value
    language :=
      if t.language.getD "" ≠ "" ∧ t.model ≠ some WhisperModel.DISTIL_ENGLISH.value then
        t.language
      else none
    temperature := t.temperature
    prompt := if t.prompt.getD "" ≠ "" then t.prompt else none }

/-- Outcome of the external effects of one item's pipeline in
`VideoProcessor._process_single_video` (`processor.py` lines 65-97): whether
the ffmpeg extraction raises, what `transcribe_audio` produces (its own
validation, network and HTTP errors included), whether the subtitle file's
disk write raises, and whether `audio_path.unlink()` raises. -/
structure ItemEnv where
  extract : Except String Unit
  transcribe : Except String Transcription
  write_file : Except String Unit
  unlink : Except String Unit

/-- The body of the `try` block of `_process_single_video` up to (and
including) artifact cleanup: extract audio, transcribe, compute and write the
subtitle document (`save_subtitles` raises on a missing `segments` key or an
unsupported output format; `write_file` is the disk write it performs), then
delete the audio artifact. Any error short-circuits. -/
def pipeline_run (env : ItemEnv) (output_format : String) : Except String Unit := do
  let _ ← env.extract
  let transcription ← env.transcribe
  let _ ← (save_subtitles transcription output_format).mapError id
  let _ ← env.write_file
  env.unlink

/-- Python `set.add` on the progress set, embedded as a duplicate-free list:
append when absent. -/
def set_add (l : List String) (p : String) : List String :=
  if p ∈ l then l else l ++ [p]

/-- `VideoProcessor._load_progress` (`processor.py` lines 138-143): read the
persisted path list when the file exists, else the empty set. The argument is
the content of `subtitle_progress.json` (`none` when the file is missing). -/
def _load_progress (file : Option (List String)) : List String := file.getD []

/-- `VideoProcessor._save_progress` (`processor.py` lines 145-147): open the
file in `"w"` mode and dump the current set as a list of path strings — a
full overwrite whose result never depends on the prior content (the second
argument). -/
def _save_progress (processed : List String) (prior : Option (List String)) :
    Option (List String) :=
  some processed

/-- Observable state of a `VideoProcessor` run: in-memory progress set,
content of the progress file, total of `progress.update(task, advance=1)`
calls, and the logger's info/error lines. -/
structure ProcState where
  processed : List String
  progress_file : Option (List String)
  advanced : Nat
  info_log : List String
  error_log : List String
  deriving DecidableEq, Repr

/-- `VideoProcessor._process_single_video` (`processor.py` lines 65-97): on
success, insert the path into the progress set, persist it, log, advance the
progress bar; on any exception, log the error and advance — the exception is
not re-raised, and neither the set nor the file is touched. -/
def _process_single_video (output_format : String) (env : ItemEnv) (video_path : String)
    (st : ProcState) : ProcState :=
  match pipeline_run env output_format with
  | .ok _ =>
    let processed := set_add st.processed video_path
    { processed := processed
      progress_file := _save_progress processed st.progress_file
      advanced := st.advanced + 1
      info_log := st.info_log ++ ["Successfully processed: " ++ video_path]
      error_log := st.error_log }
  | .error e =>
    { st with
      advanced := st.advanced + 1
      error_log := st.error_log ++ ["Failed to process " ++ video_path ++ ": " ++ e] }

/-- The filter of `VideoProcessor.process_videos` (`processor.py` line 38):
keep the candidates not already in the progress set (exact path match). -/
def unprocessed_files (video_files : List String) (processed : List String) : List String :=
  video_files.filter (fun f => decide (f ∉ processed))

/-- The items `process_videos` actually schedules: none when the candidate
list is empty (early return, line 34) or when every candidate is filtered out
(early return, line 39); otherwise the filtered list. -/
def attempted_files (video_files : List String) (st : ProcState) : List String :=
  if video_files = [] then []
  else unprocessed_files video_files st.processed

/-- `VideoProcessor.process_videos` (`processor.py` lines 28-63) over an
already-discovered candidate list: filter against the progress set, then run
every remaining item through `_process_single_video`. The worker pool is
embedded as a sequential fold (each item's pipeline runs exactly once; see
the concurrency discussion for what this abstracts). The `envs` oracle gives
each path its pipeline's external outcomes. -/
def process_videos (output_format : String) (envs : String → ItemEnv)
    (video_files : List String) (st : ProcState) : ProcState :=
  (attempted_files video_files st).foldl
    (fun s f => _process_single_video output_format (envs f) f s) st

/-- Pipeline environment of an item whose every external step succeeds and
whose transcription carries one segment. -/
def ok_env : ItemEnv :=
  { extract := .ok ()
    transcribe := .ok { segments := some [{ start := 0, stop := 2, text := "Test subtitle" }] }
    write_file := .ok ()
    unlink := .ok () }

/-- Pipeline environment of an item whose ffmpeg extraction raises. -/
def fail_env : ItemEnv :=
  { extract := .error "FFmpeg error: no audio"
    transcribe := .ok {}
    write_file := .ok ()
    unlink := .ok () }

/-- Three-item batch scenario: every item succeeds except `v2.mp4`, whose
extraction fails. -/
def three_envs : String → ItemEnv :=
  fun p => if p = "v2.mp4" then fail_env else ok_env

/-- State of a freshly constructed `VideoProcessor` when no progress file
exists: progress loaded from a missing file, nothing logged yet. -/
def empty_state : ProcState :=
  { processed := _load_progress none
    progress_file := none
    advanced := 0
    info_log := []
    error_log := [] }

/-- A concrete configuration that sets every transcription-relevant option:
model `whisper-large-v3`, response format `text`, temperature `0.5`, language
hint `en` and a context prompt. -/
def full_config : Config :=
  { groq_api_key := "key"
    model := .LARGE_V3
    output_format := "srt"
    response_format := .TEXT
    num_workers := 4
    temperature := some (1 / 2)
    language := some "en"
    recursive := false
    log_file := "subtitle_generation.log"
    prompt := some "context" }

/-- Truncation toward zero agrees with floor on nonnegative values. -/
theorem pyint_of_nonneg {q : ℚ} (h : 0 ≤ q) : pyint q = ⌊q⌋ := if_pos h

/-- Truncation is the identity on integer values. -/
theorem pyint_intCast (z : ℤ) : pyint (z : ℚ) = z := by
  unfold pyint
  split
  · exact Int.floor_intCast z
  · exact Int.ceil_intCast z

/-- Python modulo with a positive divisor is nonnegative. -/
theorem pymod_nonneg (a : ℚ) {b : ℚ} (hb : 0 < b) : 0 ≤ pymod a b := by
  unfold pymod
  have h1 : (⌊a / b⌋ : ℚ) ≤ a / b := Int.floor_le _
  have h2 : b * (⌊a / b⌋ : ℚ) ≤ b * (a / b) := mul_le_mul_of_nonneg_left h1 hb.le
  have h3 : b * (a / b) = a := by field_simp
  linarith

/-- C3: for every non-negative seconds value, the rendered timestamp has
hours = floor(seconds/3600), minutes = floor((seconds mod 3600)/60), whole
seconds = floor(seconds mod 60) and milliseconds = floor(fractional part of
seconds × 1000), zero-padded to 2 digits for h/m/s and 3 for ms, with a
comma separator in SRT mode and a period in VTT mode; in particular 3725.4
seconds renders as `01:02:05,400` (SRT) and `01:02:05.400` (VTT). -/
theorem format_timestamp_spec (s : ℚ) (hs : 0 ≤ s) :
    format_timestamp s false =
      zpad 2 ⌊s / 3600⌋ ++ ":" ++ zpad 2 ⌊(s - 3600 * ⌊s / 3600⌋) / 60⌋ ++ ":" ++
        zpad 2 ⌊s - 60 * ⌊s / 60⌋⌋ ++ "," ++ zpad 3 ⌊Int.fract s * 1000⌋ ∧
    format_timestamp s true =
      zpad 2 ⌊s / 3600⌋ ++ ":" ++ zpad 2 ⌊(s - 3600 * ⌊s / 3600⌋) / 60⌋ ++ ":" ++
        zpad 2 ⌊s - 60 * ⌊s / 60⌋⌋ ++ "." ++ zpad 3 ⌊Int.fract s * 1000⌋ ∧
    format_timestamp (3725.4 : ℚ) false = "01:02:05,400" ∧
    format_timestamp (3725.4 : ℚ) true = "01:02:05.400" := by
  have hhours : pyint (pyfloordiv s 3600) = ⌊s / 3600⌋ := by
    rw [pyfloordiv, pyint_intCast]
  have hmin : pyint (pyfloordiv (pymod s 3600) 60) = ⌊(s - 3600 * ⌊s / 3600⌋) / 60⌋ := by
    rw [pyfloordiv, pyint_intCast, pymod]
  have hsec : pyint (pymod s 60) = ⌊s - 60 * ⌊s / 60⌋⌋ := by
    rw [pyint_of_nonneg (pymod_nonneg s (by norm_num)), pymod]
  have hms : pyint ((s - (pyint s : ℚ)) * 1000) = ⌊Int.fract s * 1000⌋ := by
    rw [pyint_of_nonneg hs]
    have hfract : s - (⌊s⌋ : ℚ) = Int.fract s := rfl
    rw [hfract, pyint_of_nonneg (mul_nonneg (Int.fract_nonneg s) (by norm_num))]
  have h1 : pyint (pyfloordiv (3725.4 : ℚ) 3600) = 1 := by
    simp only [pyint, pyfloordiv]; norm_num
  have h2 : pyint (pyfloordiv (pymod (3725.4 : ℚ) 3600) 60) = 2 := by
    simp only [pyint, pyfloordiv, pymod]; norm_num
  have h3 : pyint (pymod (3725.4 : ℚ) 60) = 5 := by
    simp only [pyint, pymod]; norm_num
  have h4 : pyint (((3725.4 : ℚ) - (pyint (3725.4 : ℚ) : ℚ)) * 1000) = 400 := by
    simp only [pyint]; norm_num
  refine ⟨?_, ?_, ?_, ?_⟩
  · simp only [format_timestamp, hhours, hmin, hsec, hms, Bool.false_eq_true, if_false]
  · simp only [format_timestamp, hhours, hmin, hsec, hms, if_true]
  · simp only [format_timestamp, h1, h2, h3, h4, Bool.false_eq_true, if_false]
    rfl
  · simp only [format_timestamp, h1, h2, h3, h4, if_true]
    rfl

/-- Witness for C3 at the concrete input 3725.4 seconds. -/
theorem format_timestamp_spec_witness :
    format_timestamp (3725.4 : ℚ) false = "01:02:05,400" ∧
    format_timestamp (3725.4 : ℚ) true = "01:02:05.400" :=
  ⟨(format_timestamp_spec (3725.4 : ℚ) (by norm_num)).2.2.1,
   (format_timestamp_spec (3725.4 : ℚ) (by norm_num)).2.2.2⟩

/-- C1 (failing input): at a configuration that sets model, response format,
temperature, language and prompt, the transcriber constructed by
`VideoProcessor.__init__` does NOT carry `config.model`,
`config.response_format`, `config.temperature` or `config.prompt`: the call
`WhisperTranscriber(config.groq_api_key, config.language)` binds
`config.language` to the `model` parameter and leaves every other parameter
at its default, so the submitted form's `model` field is the language code. -/
theorem mkTranscriber_drops_config :
    (VideoProcessor.mkTranscriber full_config).model = some "en" ∧
    (VideoProcessor.mkTranscriber full_config).model ≠ some full_config.model.value ∧
    (VideoProcessor.mkTranscriber full_config).response_format = .VERBOSE_JSON ∧
    (VideoProcessor.mkTranscriber full_config).response_format ≠
      full_config.response_format ∧
    (VideoProcessor.mkTranscriber full_config).temperature = none ∧
    full_config.temperature = some (1 / 2) ∧
    (VideoProcessor.mkTranscriber full_config).prompt = none ∧
    full_config.prompt = some "context" ∧
    (VideoProcessor.mkTranscriber full_config).language = none ∧
    (build_form_data (VideoProcessor.mkTranscriber full_config)).model = some "en" ∧
    (build_form_data (VideoProcessor.mkTranscriber full_config)).response_format =
      "verbose_json" ∧
    (build_form_data (VideoProcessor.mkTranscriber full_config)).temperature = none ∧
    (build_form_data (VideoProcessor.mkTranscriber full_config)).prompt = none := by
  refine ⟨rfl, ?_, rfl, ?_, rfl, rfl, rfl, rfl, rfl, rfl, rfl, rfl, rfl⟩
  · decide
  · decide

/-- C9: `Config.from_env` computes `recursive` as `bool()` of a non-empty
default string, so the flag is `True` whenever `RECURSIVE` is unset or set to
any non-empty string (the string `"False"` included), and `False` exactly
when `RECURSIVE` is set to the empty string. -/
theorem from_env_recursive_spec :
    (∀ o : Option String, Config.from_env_recursive o = false ↔ o = some "") ∧
    (∀ o : Option String,
      Config.from_env_recursive o = true ↔ o = none ∨ ∃ s, o = some s ∧ s ≠ "") ∧
    Config.from_env_recursive none = true ∧
    Config.from_env_recursive (some "False") = true ∧
    Config.from_env_recursive (some "") = false := by
  refine ⟨?_, ?_, rfl, by decide, rfl⟩
  · intro o
    cases o with
    | none => simp [Config.from_env_recursive, pybool]
    | some s => simp [Config.from_env_recursive, pybool]
  · intro o
    cases o with
    | none => simp [Config.from_env_recursive, pybool]
    | some s => simp [Config.from_env_recursive, pybool]

/-- C5: `transcribe_audio` raises before the network exchange exactly when
the file exceeds 25 MiB (payload-too-large, checked first) or its extension,
lower-cased, is outside the supported set (unsupported-format); when both
preconditions hold no pre-network error is raised and the response handler
runs. The error never depends on the HTTP response. -/
theorem transcribe_audio_validation (t : WhisperTranscriber) (f : AudioFile)
    (resp : HttpResponse) :
    (validate_audio f = none ↔
      f.st_size ≤ MAX_FILE_SIZE ∧ pylower f.suffix ∈ SUPPORTED_AUDIO_FORMATS) ∧
    (MAX_FILE_SIZE < f.st_size →
      transcribe_audio t f resp = .error (.fileTooLarge f.st_size)) ∧
    (f.st_size ≤ MAX_FILE_SIZE → pylower f.suffix ∉ SUPPORTED_AUDIO_FORMATS →
      transcribe_audio t f resp = .error (.unsupportedFormat f.suffix)) ∧
    (validate_audio f = none →
      transcribe_audio t f resp = handle_response t.response_format resp) := by
  unfold transcribe_audio validate_audio
  split_ifs with h1 h2 <;> refine ⟨?_, ?_, ?_, ?_⟩ <;> simp_all <;> omega

/-- Witness for C5: a 25 MiB + 1 byte file is rejected as too large before
the response is consulted, and a 10-byte `.OGG` file is rejected for its
format. -/
theorem transcribe_audio_validation_witness :
    transcribe_audio { api_key := "k" } { suffix := ".mp3", st_size := 26214401 }
        { status := 200, body := "", json := {} } = .error (.fileTooLarge 26214401) ∧
    transcribe_audio { api_key := "k" } { suffix := ".OGG", st_size := 10 }
        { status := 200, body := "", json := {} } = .error (.unsupportedFormat ".OGG") :=
  ⟨(transcribe_audio_validation _ _ _).2.1 (by norm_num [MAX_FILE_SIZE]),
   (transcribe_audio_validation _ _ _).2.2.1 (by norm_num [MAX_FILE_SIZE]) (by decide)⟩

/-- C8: `_save_progress` fully overwrites the progress file with the current
set serialized as a list of path strings — the result never depends on the
prior file content — and a subsequent `_load_progress` returns exactly the
saved set; loading a missing file yields the empty set. -/
theorem progress_roundtrip (S : List String) (prior prior2 : Option (List String)) :
    _save_progress S prior = some S ∧
    _save_progress S prior = _save_progress S prior2 ∧
    _load_progress (_save_progress S prior) = S ∧
    _load_progress none = [] :=
  ⟨rfl, rfl, rfl, rfl⟩

/-- C2 (counterexample): on a 200 response with body `"Test transcription."`
under the plain-text response format, `transcribe_audio` returns a dict whose
only key is `text`; it has NO `segments` key at all (not a one-element
segment list), and the subtitle formatter raises `KeyError` on it. -/
theorem text_response_has_no_segments :
    transcribe_audio { api_key := "k", response_format := .TEXT }
        { suffix := ".mp3", st_size := 5 }
        { status := 200, body := "Test transcription.", json := {} } =
      .ok { text := some "Test transcription.", segments := none } ∧
    Transcription.segments { text := some "Test transcription.", segments := none } = none ∧
    save_subtitles { text := some "Test transcription.", segments := none } "srt" =
      .error "KeyError: segments" := by
  refine ⟨?_, rfl, rfl⟩
  rfl

/-- C2 (amended): for every 200 response under the plain-text response
format (and a file passing validation), `transcribe_audio` returns
`\x7b"text": body\x7d` with no `segments` key, and `save_subtitles` raises
`KeyError` on that result for every supported output kind. -/
theorem text_response_amended (t : WhisperTranscriber) (f : AudioFile)
    (resp : HttpResponse) (hfmt : t.response_format = .TEXT)
    (hval : validate_audio f = none) (hst : resp.status = 200) :
    transcribe_audio t f resp = .ok { text := some resp.body, segments := none } ∧
    ∀ fmt ∈ (["srt", "vtt", "txt"] : List String),
      save_subtitles { text := some resp.body, segments := none } fmt =
        .error "KeyError: segments" := by
  constructor
  · unfold transcribe_audio
    rw [hval]
    unfold handle_response
    rw [hst, hfmt]
    simp
  · intro fmt hmem
    fin_cases hmem <;> rfl

/-- Witness for C2's amended statement at a concrete transcriber, file and
response. -/
theorem text_response_amended_witness :
    transcribe_audio { api_key := "k", response_format := .TEXT }
        { suffix := ".wav", st_size := 0 }
        { status := 200, body := "hello", json := {} } =
      .ok { text := some "hello", segments := none } ∧
    save_subtitles { text := some "hello", segments := none } "vtt" =
      .error "KeyError: segments" := by
  have h := text_response_amended { api_key := "k", response_format := .TEXT }
    { suffix := ".wav", st_size := 0 }
    { status := 200, body := "hello", json := {} } rfl (by decide) rfl
  exact ⟨h.1, h.2 "vtt" (by decide)⟩

/-- Timestamp for 0 seconds in SRT mode. -/
theorem format_timestamp_zero : format_timestamp (0 : ℚ) false = "00:00:00,000" := by
  have h1 : pyint (pyfloordiv (0 : ℚ) 3600) = 0 := by
    simp only [pyint, pyfloordiv]; norm_num
  have h2 : pyint (pyfloordiv (pymod (0 : ℚ) 3600) 60) = 0 := by
    simp only [pyint, pyfloordiv, pymod]; norm_num
  have h3 : pyint (pymod (0 : ℚ) 60) = 0 := by
    simp only [pyint, pymod]; norm_num
  have h4 : pyint (((0 : ℚ) - (pyint (0 : ℚ) : ℚ)) * 1000) = 0 := by
    simp only [pyint]; norm_num
  simp only [format_timestamp, h1, h2, h3, h4, Bool.false_eq_true, if_false]
  rfl

/-- Timestamp for 2 seconds in SRT mode. -/
theorem format_timestamp_two : format_timestamp (2 : ℚ) false = "00:00:02,000" := by
  have h1 : pyint (pyfloordiv (2 : ℚ) 3600) = 0 := by
    simp only [pyint, pyfloordiv]; norm_num
  have h2 : pyint (pyfloordiv (pymod (2 : ℚ) 3600) 60) = 0 := by
    simp only [pyint, pyfloordiv, pymod]; norm_num
  have h3 : pyint (pymod (2 : ℚ) 60) = 2 := by
    simp only [pyint, pymod]; norm_num
  have h4 : pyint (((2 : ℚ) - (pyint (2 : ℚ) : ℚ)) * 1000) = 0 := by
    simp only [pyint]; norm_num
  simp only [format_timestamp, h1, h2, h3, h4, Bool.false_eq_true, if_false]
  rfl

/-- The SRT loop starting its index at `n` emits, in order, one block per
segment with consecutive indices from `n`. -/
theorem format_srt_from_enumFrom (segs : List Segment) : ∀ n : Nat,
    format_srt_from n segs =
      ((segs.enumFrom n).map fun p =>
        toString p.1 ++ "\n" ++ format_timestamp p.2.start false ++ " --> " ++
          format_timestamp p.2.stop false ++ "\n" ++ p.2.text ++ "\n\n").foldr
        (· ++ ·) "" := by
  induction segs with
  | nil => intro n; rfl
  | cons seg rest ih =>
    intro n
    rw [format_srt_from, List.enumFrom_cons, List.map_cons, List.foldr_cons, ih (n + 1)]
    rfl

/-- C6: SRT formatting emits exactly one block per segment, in order, each
block being `<index>\n<start> --> <end>\n<text>\n\n` with a sequential
1-based index and comma-millisecond timestamps; the single-segment result
with start 0, end 2, text `Test subtitle` yields exactly
`1\n00:00:00,000 --> 00:00:02,000\nTest subtitle\n\n`. -/
theorem save_srt_blocks (segs : List Segment) :
    format_srt segs =
      ((segs.enumFrom 1).map fun p =>
        toString p.1 ++ "\n" ++ format_timestamp p.2.start false ++ " --> " ++
          format_timestamp p.2.stop false ++ "\n" ++ p.2.text ++ "\n\n").foldr
        (· ++ ·) "" ∧
    format_srt [{ start := 0, stop := 2, text := "Test subtitle" }] =
      "1\n00:00:00,000 --> 00:00:02,000\nTest subtitle\n\n" ∧
    save_subtitles { segments := some [{ start := 0, stop := 2, text := "Test subtitle" }] }
        "srt" =
      .ok "1\n00:00:00,000 --> 00:00:02,000\nTest subtitle\n\n" := by
  have hconcrete : format_srt [{ start := 0, stop := 2, text := "Test subtitle" }] =
      "1\n00:00:00,000 --> 00:00:02,000\nTest subtitle\n\n" := by
    show srt_block 1 { start := 0, stop := 2, text := "Test subtitle" } ++ "" =
      "1\n00:00:00,000 --> 00:00:02,000\nTest subtitle\n\n"
    rw [srt_block]
    simp only [format_timestamp_zero, format_timestamp_two]
    rfl
  refine ⟨format_srt_from_enumFrom segs 1, hconcrete, ?_⟩
  simp only [save_subtitles, save_srt, Transcription.getSegments, Except.map, hconcrete,
    if_pos]

/-- Membership in the progress set after a `set.add`. -/
theorem mem_set_add {l : List String} {p q : String} :
    q ∈ set_add l p ↔ q ∈ l ∨ q = p := by
  unfold set_add
  split_ifs with h
  · constructor
    · exact Or.inl
    · rintro (hq | rfl)
      · exact hq
      · exact h
  · simp [List.mem_append]

/-- Processing one item never removes paths from the progress set. -/
theorem process_single_video_mono (fmt : String) (env : ItemEnv) (path q : String)
    (st : ProcState) (hq : q ∈ st.processed) :
    q ∈ (_process_single_video fmt env path st).processed := by
  unfold _process_single_video
  cases hpr : pipeline_run env fmt with
  | ok u => exact mem_set_add.mpr (Or.inl hq)
  | error e => exact hq

/-- Folding a worker pass over any item list preserves progress-set
membership. -/
theorem foldl_process_mono (fmt : String) (envs : String → ItemEnv) (l : List String)
    (st : ProcState) (q : String) (hq : q ∈ st.processed) :
    q ∈ (l.foldl (fun s f => _process_single_video fmt (envs f) f s) st).processed := by
  induction l generalizing st with
  | nil => exact hq
  | cons f rest ih => exact ih _ (process_single_video_mono fmt (envs f) f q st hq)

/-- An item of the pass whose pipeline succeeds ends up in the progress
set. -/
theorem foldl_process_success (fmt : String) (envs : String → ItemEnv) (l : List String)
    (st : ProcState) (q : String) (hmem : q ∈ l)
    (hok : pipeline_run (envs q) fmt = .ok ()) :
    q ∈ (l.foldl (fun s f => _process_single_video fmt (envs f) f s) st).processed := by
  induction l generalizing st with
  | nil => cases hmem
  | cons f rest ih =>
    rcases List.mem_cons.mp hmem with rfl | hrest
    · refine foldl_process_mono fmt envs rest _ q ?_
      show q ∈ (_process_single_video fmt (envs q) q st).processed
      unfold _process_single_video
      rw [hok]
      exact mem_set_add.mpr (Or.inr rfl)
    · exact ih _ hrest

/-- C4: a failure inside the per-item pipeline is absorbed at the item
boundary — the path is not added to the progress set, no progress save
happens for it, and the progress counter still advances by one (as it does
on success); in the concrete 3-item batch where only `v2.mp4`'s extraction
fails, the run completes all 3 items and persists exactly the 2 successful
paths. -/
theorem process_single_video_isolation (fmt : String) (env : ItemEnv) (path : String)
    (st : ProcState) (e : String) (hfail : pipeline_run env fmt = .error e) :
    (_process_single_video fmt env path st).processed = st.processed ∧
    (_process_single_video fmt env path st).progress_file = st.progress_file ∧
    (_process_single_video fmt env path st).advanced = st.advanced + 1 ∧
    (∀ env' : ItemEnv,
      (_process_single_video fmt env' path st).advanced = st.advanced + 1) ∧
    (process_videos "srt" three_envs ["v1.mp4", "v2.mp4", "v3.mp4"]
        empty_state).processed = ["v1.mp4", "v3.mp4"] ∧
    (process_videos "srt" three_envs ["v1.mp4", "v2.mp4", "v3.mp4"]
        empty_state).progress_file = some ["v1.mp4", "v3.mp4"] ∧
    (process_videos "srt" three_envs ["v1.mp4", "v2.mp4", "v3.mp4"]
        empty_state).advanced = 3 ∧
    "v2.mp4" ∉ (process_videos "srt" three_envs ["v1.mp4", "v2.mp4", "v3.mp4"]
        empty_state).processed := by
  refine ⟨?_, ?_, ?_, ?_, by decide, by decide, by decide, by decide⟩
  · unfold _process_single_video
    rw [hfail]
  · unfold _process_single_video
    rw [hfail]
  · unfold _process_single_video
    rw [hfail]
  · intro env'
    unfold _process_single_video
    cases pipeline_run env' fmt <;> rfl

/-- Witness for C4 at a concrete failing item: the path stays out of the
progress set, the file is untouched, the counter advances. -/
theorem process_single_video_isolation_witness :
    (_process_single_video "srt" fail_env "a.mp4" empty_state).processed = [] ∧
    (_process_single_video "srt" fail_env "a.mp4" empty_state).progress_file = none ∧
    (_process_single_video "srt" fail_env "a.mp4" empty_state).advanced = 1 := by
  have h := process_single_video_isolation "srt" fail_env "a.mp4" empty_state
    "FFmpeg error: no audio" rfl
  exact ⟨h.1, h.2.1, h.2.2.1⟩

/-- C7 (counterexample): with one item whose extraction fails, run 1
persists nothing, and run 2 — constructed from the progress file run 1 left
behind — attempts that item again: the attempted set of run 2 is not
empty. -/
theorem rerun_reattempts_failed_items :
    (process_videos "srt" (fun _ => fail_env) ["a.mp4"] empty_state).progress_file =
      none ∧
    attempted_files ["a.mp4"]
      { processed := _load_progress
          (process_videos "srt" (fun _ => fail_env) ["a.mp4"] empty_state).progress_file
        progress_file :=
          (process_videos "srt" (fun _ => fail_env) ["a.mp4"] empty_state).progress_file
        advanced := 0
        info_log := []
        error_log := [] } = ["a.mp4"] := by
  exact ⟨by decide, by decide⟩

/-- C7 (amended): the filter excludes exactly the candidates already in the
progress set (exact path match); when every candidate is excluded the run
starts no worker and leaves the state unchanged; and when every attempted
item of a run succeeds, a second run on the same input attempts zero items
and is a no-op. (When an item fails, the code deliberately leaves it out of
the progress set, so a rerun attempts it again.) -/
theorem process_videos_filter_idempotent (fmt : String) (envs : String → ItemEnv)
    (video_files : List String) (st : ProcState)
    (hok : ∀ f ∈ unprocessed_files video_files st.processed,
      pipeline_run (envs f) fmt = .ok ()) :
    (∀ f, f ∈ unprocessed_files video_files st.processed ↔
      f ∈ video_files ∧ f ∉ st.processed) ∧
    ((∀ f ∈ video_files, f ∈ st.processed) →
      process_videos fmt envs video_files st = st) ∧
    attempted_files video_files (process_videos fmt envs video_files st) = [] ∧
    process_videos fmt envs video_files (process_videos fmt envs video_files st) =
      process_videos fmt envs video_files st := by
  have hchar : ∀ f, f ∈ unprocessed_files video_files st.processed ↔
      f ∈ video_files ∧ f ∉ st.processed := by
    intro f
    simp [unprocessed_files, List.mem_filter]
  have hmain : attempted_files video_files (process_videos fmt envs video_files st) = [] := by
    by_cases hv : video_files = []
    · simp [attempted_files, hv]
    · unfold attempted_files
      rw [if_neg hv]
      unfold unprocessed_files
      rw [List.filter_eq_nil]
      intro f hf
      simp only [decide_eq_true_eq, Decidable.not_not]
      by_cases hp : f ∈ st.processed
      · unfold process_videos
        exact foldl_process_mono fmt envs _ st f hp
      · have hfu : f ∈ unprocessed_files video_files st.processed :=
          (hchar f).mpr ⟨hf, hp⟩
      
        have hfu' : f ∈ attempted_files video_files st := by
          unfold attempted_files
          rw [if_neg hv]
          exact hfu
        unfold process_videos
        exact foldl_process_success fmt envs _ st f hfu' (hok f hfu)
  refine ⟨hchar, ?_, hmain, ?_⟩
  · intro hall
    have hempty : attempted_files video_files st = [] := by
      by_cases hv : video_files = []
      · simp [attempted_files, hv]
      · unfold attempted_files
        rw [if_neg hv]
        unfold unprocessed_files
        rw [List.filter_eq_nil]
        intro f hf
        simp [hall f hf]
    unfold process_videos
    rw [hempty]
    rfl
  · generalize hP : process_videos fmt envs video_files st = P at hmain ⊢
    unfold process_videos
    rw [hmain]
    rfl

/-- Witness for C7's amended statement: a two-item all-success batch leaves
nothing to attempt on a rerun. -/
theorem process_videos_filter_idempotent_witness :
    attempted_files ["a.mp4", "b.mp4"]
      (process_videos "srt" (fun _ => ok_env) ["a.mp4", "b.mp4"] empty_state) = [] := by
  have h := process_videos_filter_idempotent "srt" (fun _ => ok_env)
    ["a.mp4", "b.mp4"] empty_state (fun f _ => rfl)
  exact h.2.2.1
